import Mathlib

/-!
Verification of the XML-RPC example client (`src/example/python_client.py`)
against its specification.

The script under `src/` is a thin consumer of an XML-RPC binding: it builds a
multicall batch, dispatches it, and performs one dynamic proxy call.  The
binding itself (the MultiCall builder, the batch dispatcher and the remote
server's method implementations) is part of this repository but is not under
`src/`, so those parts are modelled from the spec, as marked on each
definition.  XML-RPC `double` values are modelled as exact rationals, since
every property stated about them (sortedness, permutation) is purely
order-theoretic.
-/

namespace XmlRpc

/-- An XML-RPC value: the wire encoding supports numbers, strings, booleans
and sequences (spec section 4.1). -/
inductive Value : Type where
  | int (i : Int)
  | double (d : ℚ)
  | str (s : String)
  | bool (b : Bool)
  | list (vs : List Value)


/-- A single remote method call: a name and an ordered argument list
(spec section 3, `MethodCall`). -/
structure MethodCall : Type where
  name : String
  args : List Value


/-- Result of one call inside a batch: `Success(value)` or
`Fault(code, message)` (spec section 3, `CallResult`). -/
inductive CallResult : Type where
  | success (v : Value)
  | fault (code : Int) (message : String)


/-- Modelled from the spec: the remote server's method dispatch table is not
under `src/`; it is represented abstractly as a function from a method call
to its result. -/
def Server : Type := MethodCall → CallResult

/-- A proxy bound to one endpoint URL
(`xmlrpclib.ServerProxy(endpoint)` in the script). -/
structure Proxy : Type where
  endpoint : String


/-- One network request: which endpoint it goes to and which calls it
carries.  Operations return the list of requests they emit, making network
I/O observable in the model. -/
structure NetRequest : Type where
  endpoint : String
  calls : List MethodCall


/-- Modelled from the spec: the MultiCall builder of the RPC binding is not
under `src/`.  It accumulates method calls bound to one endpoint
(`xmlrpclib.MultiCall(proxy)` in the script). -/
structure MultiCall : Type where
  proxy : Proxy
  batch : List MethodCall


/-- Modelled from the spec: `newBatch(proxyEndpoint)` — an empty batch bound
to one endpoint. -/
def newMultiCall (p : Proxy) : MultiCall := ⟨p, []⟩

/-- Modelled from the spec: `append(name, args...)` appends a MethodCall to
the batch and performs no network I/O (the empty request list). -/
def MultiCall.append (m : MultiCall) (c : MethodCall) : MultiCall × List NetRequest :=
  (⟨m.proxy, m.batch ++ [c]⟩, [])

/-- Modelled from the spec: `dispatch(batch)` sends exactly one network
request containing all accumulated calls in append order and returns one
CallResult per call, in the same order. -/
def dispatch (s : Server) (m : MultiCall) : List CallResult × List NetRequest :=
  (m.batch.map s, [⟨m.proxy.endpoint, m.batch⟩])

/-- Modelled from the spec: the dynamic proxy entry point
`call(endpoint, methodName, args...)` — a single round trip that forwards
the name and arguments to the server unchecked and returns whatever the
server computes. -/
def call (s : Server) (p : Proxy) (name : String) (args : List Value) :
    CallResult × List NetRequest :=
  (s ⟨name, args⟩, [⟨p.endpoint, [⟨name, args⟩]⟩])

/-- Build a MultiCall by appending the given calls in order, starting from
the empty batch. -/
def buildMC (p : Proxy) (cs : List MethodCall) : MultiCall :=
  cs.foldl (fun m c => (m.append c).1) (newMultiCall p)

theorem MultiCall.append_batch (m : MultiCall) (c : MethodCall) :
    (m.append c).1.batch = m.batch ++ [c] := rfl

theorem MultiCall.append_proxy (m : MultiCall) (c : MethodCall) :
    (m.append c).1.proxy = m.proxy := rfl

theorem buildMC_proxy (p : Proxy) (cs : List MethodCall) :
    (buildMC p cs).proxy = p := by
  suffices h : ∀ m : MultiCall,
      (cs.foldl (fun m c => (m.append c).1) m).proxy = m.proxy by
    exact h (newMultiCall p)
  induction cs with
  | nil => intro m; rfl
  | cons c cs ih => intro m; simpa using ih _

theorem buildMC_batch (p : Proxy) (cs : List MethodCall) :
    (buildMC p cs).batch = cs := by
  suffices h : ∀ m : MultiCall,
      (cs.foldl (fun m c => (m.append c).1) m).batch = m.batch ++ cs by
    simpa using h (newMultiCall p)
  induction cs with
  | nil => intro m; simp
  | cons c cs ih =>
      intro m
      simpa [MultiCall.append, List.append_assoc] using ih ⟨m.proxy, m.batch ++ [c]⟩

/-- Extract the rational payloads from a list of values, provided every
element is a `double`; `none` otherwise. -/
def asDoubles : List Value → Option (List ℚ)
  | [] => some []
  | Value.double d :: rest => (asDoubles rest).map (fun ds => d :: ds)
  | _ => none

/-- Modelled from the spec: the server-side sort used by `sortSomeDoubles`
(ascending when the flag is true, descending otherwise). -/
def sortDoubles (ds : List ℚ) (ascending : Bool) : List ℚ :=
  if ascending then List.insertionSort (· ≤ ·) ds
  else List.insertionSort (· ≥ ·) ds

/-- Modelled from the spec: the remote server's method implementations are
not under `src/`.  `swapTwoIntegers` returns its two integer arguments
swapped; `sortSomeDoubles` sorts its list of doubles ascending or descending
per the boolean flag; `superDynamicMethod` returns a value the spec leaves
unspecified (here: its arguments echoed back); anything else is a fault, as
is a call with ill-typed arguments. -/
def serverImpl : MethodCall → CallResult
  | ⟨"swapTwoIntegers", [Value.int a, Value.int b]⟩ =>
      CallResult.success (Value.list [Value.int b, Value.int a])
  | ⟨"sortSomeDoubles", [Value.list vs, Value.bool asc]⟩ =>
      match asDoubles vs with
      | some ds => CallResult.success (Value.list ((sortDoubles ds asc).map Value.double))
      | none => CallResult.fault (-32602) "invalid method parameters"
  | ⟨"superDynamicMethod", args⟩ => CallResult.success (Value.list args)
  | _ => CallResult.fault (-32601) "method not found"

/-- The three calls the script appends to its multicall, in program order,
as a function of the five randomly generated doubles
(`src/example/python_client.py`, lines 14-18). -/
def scriptCalls (someDoubles : List ℚ) : List MethodCall :=
  [⟨"swapTwoIntegers", [Value.int 42, Value.int (-73)]⟩,
   ⟨"sortSomeDoubles", [Value.list (someDoubles.map Value.double), Value.bool true]⟩,
   ⟨"sortSomeDoubles", [Value.list (someDoubles.map Value.double), Value.bool false]⟩]

/-- The multicall builder as the script leaves it just before dispatching. -/
def scriptMulticall (p : Proxy) (someDoubles : List ℚ) : MultiCall :=
  buildMC p (scriptCalls someDoubles)

/-- The argument list of the script's dynamic call
`proxy.superDynamicMethod('The string', True, False, 12.3, 42)`
(`src/example/python_client.py`, line 26). -/
def dynamicArgs : List Value :=
  [Value.str "The string", Value.bool true, Value.bool false,
   Value.double (123 / 10), Value.int 42]

/-- `endpoint = sys.argv[1] if len(sys.argv) > 1 else 'http://localhost:8000'`
(`src/example/python_client.py`, line 5).  `argv` includes the program name
at index 0, as in Python. -/
def endpoint (argv : List String) : String :=
  if h : argv.length > 1 then argv.get ⟨1, h⟩ else "http://localhost:8000"

/-- The sequence of network requests one run of the script emits, in order:
the single request of the multicall dispatch, then the request of the
dynamic `superDynamicMethod` call (`src/example/python_client.py`). -/
def scriptRun (s : Server) (argv : List String) (someDoubles : List ℚ) :
    List NetRequest :=
  let p : Proxy := ⟨endpoint argv⟩
  (dispatch s (scriptMulticall p someDoubles)).2 ++
    (call s p "superDynamicMethod" dynamicArgs).2

theorem asDoubles_map_double (ds : List ℚ) :
    asDoubles (ds.map Value.double) = some ds := by
  induction ds with
  | nil => rfl
  | cons d ds ih => simp [asDoubles, ih]

/-- A concrete batch mixing one call the server answers successfully and one
call of a method the server does not know, used to exhibit a mixed batch. -/
def mixedMC : MultiCall :=
  buildMC ⟨"http://localhost:8000"⟩
    [⟨"swapTwoIntegers", [Value.int 42, Value.int (-73)]⟩, ⟨"noSuchMethod", []⟩]

/-- C1: for every MultiCallBatch built by appending N method calls, the
response sequence returned by dispatch has exactly N elements, and the
element at position i is the server's result for the MethodCall appended at
position i (append order is preserved). -/
theorem c1_dispatch_preserves_length_and_order (s : Server) (p : Proxy)
    (cs : List MethodCall) :
    (dispatch s (buildMC p cs)).1.length = cs.length ∧
    ∀ i : Nat, ((dispatch s (buildMC p cs)).1)[i]? = (cs[i]?).map s := by
  constructor
  · simp [dispatch, buildMC_batch]
  · intro i
    simp [dispatch, buildMC_batch, List.getElem?_map]

/-- C2: appending a call to a MultiCall builder emits no network request;
dispatching emits exactly one network request, carrying all accumulated
calls in append order. -/
theorem c2_append_no_net_dispatch_one_request (s : Server) (p : Proxy)
    (cs : List MethodCall) :
    (∀ (m : MultiCall) (c : MethodCall), (m.append c).2 = []) ∧
    (dispatch s (buildMC p cs)).2 = [⟨p.endpoint, cs⟩] := by
  refine ⟨fun m c => rfl, ?_⟩
  simp [dispatch, buildMC_batch, buildMC_proxy]

/-- C3: for a batch whose dispatched results mix successes and faults, each
response element is exactly the server's result for its own position's call
(Success or Fault independently); a fault at one position leaves every other
position's result unchanged, since each element is determined by its own
call alone. -/
theorem c3_results_independent_per_position (s : Server) (m : MultiCall)
    (hmix : (∃ (i : Nat) (v : Value), ((dispatch s m).1)[i]? = some (CallResult.success v)) ∧
            (∃ (j : Nat) (c : Int) (msg : String), ((dispatch s m).1)[j]? = some (CallResult.fault c msg))) :
    ((dispatch s m).1).length = m.batch.length ∧
    ∀ i : Nat, ((dispatch s m).1)[i]? = (m.batch[i]?).map s := by
  refine ⟨by simp [dispatch], fun i => ?_⟩
  simp [dispatch, List.getElem?_map]

/-- Witness for C3 at a concrete mixed batch: position 0 succeeds, position
1 faults, and the conclusion of the theorem holds there. -/
theorem c3_witness_mixed_batch :
    ((∃ (i : Nat) (v : Value), ((dispatch serverImpl mixedMC).1)[i]? = some (CallResult.success v)) ∧
     (∃ (j : Nat) (c : Int) (msg : String), ((dispatch serverImpl mixedMC).1)[j]? = some (CallResult.fault c msg))) ∧
    (((dispatch serverImpl mixedMC).1).length = mixedMC.batch.length ∧
     ∀ i : Nat, ((dispatch serverImpl mixedMC).1)[i]? = (mixedMC.batch[i]?).map serverImpl) := by
  have hmix :
      (∃ (i : Nat) (v : Value), ((dispatch serverImpl mixedMC).1)[i]? = some (CallResult.success v)) ∧
      (∃ (j : Nat) (c : Int) (msg : String), ((dispatch serverImpl mixedMC).1)[j]? = some (CallResult.fault c msg)) :=
    ⟨⟨0, Value.list [Value.int (-73), Value.int 42], rfl⟩,
     ⟨1, -32601, "method not found", rfl⟩⟩
  exact ⟨hmix, c3_results_independent_per_position serverImpl mixedMC hmix⟩

/-- C4: dispatching a batch to which zero calls were appended returns the
empty response sequence, without error, performing at most one network
round trip. -/
theorem c4_empty_batch_dispatch (s : Server) (p : Proxy) :
    (dispatch s (newMultiCall p)).1 = [] ∧
    (dispatch s (newMultiCall p)).2.length ≤ 1 :=
  ⟨rfl, Nat.le_refl 1⟩

/-- C5: if a batch contains the appended call `swapTwoIntegers(42, -73)` at
some position, the CallResult at that position after dispatch is Success of
the pair `(-73, 42)`. -/
theorem c5_swapTwoIntegers_result (m : MultiCall) (i : Nat)
    (h : m.batch[i]? = some ⟨"swapTwoIntegers", [Value.int 42, Value.int (-73)]⟩) :
    ((dispatch serverImpl m).1)[i]? =
      some (CallResult.success (Value.list [Value.int (-73), Value.int 42])) := by
  simp [dispatch, List.getElem?_map, h, serverImpl]

/-- Witness for C5: the script's own batch has the swap call at position 0,
and its dispatched result there is the swapped pair. -/
theorem c5_witness_script_batch :
    ((scriptMulticall ⟨"http://localhost:8000"⟩ []).batch[0]? =
      some ⟨"swapTwoIntegers", [Value.int 42, Value.int (-73)]⟩) ∧
    ((dispatch serverImpl (scriptMulticall ⟨"http://localhost:8000"⟩ [])).1)[0]? =
      some (CallResult.success (Value.list [Value.int (-73), Value.int 42])) :=
  ⟨rfl, c5_swapTwoIntegers_result _ 0 rfl⟩

/-- C6: for every 5-element list of doubles, appending
`sortSomeDoubles(ds, true)` and `sortSomeDoubles(ds, false)` and dispatching
yields exactly two results: the first a non-decreasing sequence, the second
a non-increasing sequence, and both permutations of the input list. -/
theorem c6_sortSomeDoubles_sorted_perm (p : Proxy) (ds : List ℚ)
    (h : ds.length = 5) :
    ∃ xs ys : List ℚ,
      (dispatch serverImpl (buildMC p
        [⟨"sortSomeDoubles", [Value.list (ds.map Value.double), Value.bool true]⟩,
         ⟨"sortSomeDoubles", [Value.list (ds.map Value.double), Value.bool false]⟩])).1 =
        [CallResult.success (Value.list (xs.map Value.double)),
         CallResult.success (Value.list (ys.map Value.double))] ∧
      List.Sorted (· ≤ ·) xs ∧ List.Sorted (· ≥ ·) ys ∧
      List.Perm xs ds ∧ List.Perm ys ds := by
  refine ⟨sortDoubles ds true, sortDoubles ds false, ?_, ?_, ?_, ?_, ?_⟩
  · simp [dispatch, buildMC_batch, serverImpl, asDoubles_map_double]
  · simpa [sortDoubles] using List.sorted_insertionSort (α := ℚ) (· ≤ ·) ds
  · simpa [sortDoubles] using List.sorted_insertionSort (α := ℚ) (· ≥ ·) ds
  · simpa [sortDoubles] using List.perm_insertionSort (α := ℚ) (· ≤ ·) ds
  · simpa [sortDoubles] using List.perm_insertionSort (α := ℚ) (· ≥ ·) ds

/-- Witness for C6 at the concrete 5-element list `[1, 1/2, 3, 0, 2]`. -/
theorem c6_witness_concrete_doubles :
    ([(1 : ℚ), 1/2, 3, 0, 2].length = 5) ∧
    ∃ xs ys : List ℚ,
      (dispatch serverImpl (buildMC ⟨"http://localhost:8000"⟩
        [⟨"sortSomeDoubles",
          [Value.list ([(1 : ℚ), 1/2, 3, 0, 2].map Value.double), Value.bool true]⟩,
         ⟨"sortSomeDoubles",
          [Value.list ([(1 : ℚ), 1/2, 3, 0, 2].map Value.double), Value.bool false]⟩])).1 =
        [CallResult.success (Value.list (xs.map Value.double)),
         CallResult.success (Value.list (ys.map Value.double))] ∧
      List.Sorted (· ≤ ·) xs ∧ List.Sorted (· ≥ ·) ys ∧
      List.Perm xs [(1 : ℚ), 1/2, 3, 0, 2] ∧ List.Perm ys [(1 : ℚ), 1/2, 3, 0, 2] :=
  ⟨rfl, c6_sortSomeDoubles_sorted_perm ⟨"http://localhost:8000"⟩ [1, 1/2, 3, 0, 2] rfl⟩

/-- C7: the dynamic proxy entry point forwards any method name and argument
list to the server with no client-side existence check, returning exactly
what the server computes; in particular so for
`superDynamicMethod("The string", true, false, 12.3, 42)`. -/
theorem c7_dynamic_call_unchecked (s : Server) (p : Proxy) :
    (∀ (name : String) (args : List Value), (call s p name args).1 = s ⟨name, args⟩) ∧
    (call s p "superDynamicMethod" dynamicArgs).1 = s ⟨"superDynamicMethod", dynamicArgs⟩ :=
  ⟨fun _ _ => rfl, rfl⟩

/-- C8: with no positional argument the endpoint is exactly
`http://localhost:8000`; with one positional argument the endpoint is that
argument. -/
theorem c8_endpoint_default_and_argument (prog : String) :
    endpoint [prog] = "http://localhost:8000" ∧
    ∀ url : String, endpoint [prog, url] = url :=
  ⟨rfl, fun _ => rfl⟩

/-- C9: in the script's batch, both sortSomeDoubles calls receive the
identical list of doubles (same values, same order), differing only in the
boolean flag, and the two corresponding dispatched results are permutations
of each other. -/
theorem c9_same_list_both_sorts_perm (p : Proxy) (ds : List ℚ) :
    ((scriptMulticall p ds).batch[1]?).map MethodCall.args =
      some [Value.list (ds.map Value.double), Value.bool true] ∧
    ((scriptMulticall p ds).batch[2]?).map MethodCall.args =
      some [Value.list (ds.map Value.double), Value.bool false] ∧
    ∃ xs ys : List ℚ,
      ((dispatch serverImpl (scriptMulticall p ds)).1)[1]? =
        some (CallResult.success (Value.list (xs.map Value.double))) ∧
      ((dispatch serverImpl (scriptMulticall p ds)).1)[2]? =
        some (CallResult.success (Value.list (ys.map Value.double))) ∧
      List.Perm xs ys := by
  refine ⟨?_, ?_, sortDoubles ds true, sortDoubles ds false, ?_, ?_, ?_⟩
  · simp [scriptMulticall, buildMC_batch, scriptCalls]
  · simp [scriptMulticall, buildMC_batch, scriptCalls]
  · simp [dispatch, scriptMulticall, buildMC_batch, scriptCalls, serverImpl,
      asDoubles_map_double]
  · simp [dispatch, scriptMulticall, buildMC_batch, scriptCalls, serverImpl,
      asDoubles_map_double]
  · exact (List.perm_insertionSort (α := ℚ) (· ≤ ·) ds).trans
      (List.perm_insertionSort (α := ℚ) (· ≥ ·) ds).symm

/-- C10: every network request one run of the script emits — the multicall
dispatch and the dynamic superDynamicMethod call — is directed at the single
endpoint determined once from the command line. -/
theorem c10_single_endpoint (s : Server) (argv : List String) (ds : List ℚ)
    (r : NetRequest) (hr : r ∈ scriptRun s argv ds) :
    r.endpoint = endpoint argv := by
  simp [scriptRun, dispatch, call, scriptMulticall, buildMC_proxy] at hr
  rcases hr with h | h <;> subst h <;> rfl

/-- Witness for C10 at a concrete run with no CLI argument: the multicall
request is among the emitted requests and goes to the default endpoint. -/
theorem c10_witness_concrete_run :
    ((⟨"http://localhost:8000", scriptCalls []⟩ : NetRequest) ∈
      scriptRun serverImpl ["python_client.py"] []) ∧
    (⟨"http://localhost:8000", scriptCalls []⟩ : NetRequest).endpoint =
      endpoint ["python_client.py"] := by
  have hm : (⟨"http://localhost:8000", scriptCalls []⟩ : NetRequest) ∈
      scriptRun serverImpl ["python_client.py"] [] := List.mem_cons_self _ _
  exact ⟨hm, c10_single_endpoint serverImpl ["python_client.py"] [] _ hm⟩

end XmlRpc
